import Mathlib

/-!
Verification of the impersonation core of an HTTP client library.

The development shallowly embeds the profile registry, the identifier
parser and the OkHttp TLS sub-builder from the source files
`src/tls/impersonate/mod.rs` and `src/tls/impersonate/okhttp/tls.rs`.
Per-profile builder modules (chrome, safari, okhttp, edge versions) are
not part of the given sources; where a claim needs them, they are
modelled from the specification and marked as such in the doc comment.
-/

set_option maxHeartbeats 1000000

/-- The closed `Impersonate` enumeration from `mod.rs`, one constructor per
supported browser/runtime version, in source order. -/
inductive Impersonate where
  | Chrome100
  | Chrome101
  | Chrome104
  | Chrome105
  | Chrome106
  | Chrome107
  | Chrome108
  | Chrome109
  | Chrome114
  | Chrome116
  | Chrome117
  | Chrome118
  | Chrome119
  | Chrome120
  | Chrome123
  | Chrome124
  | Chrome126
  | Chrome127
  | Chrome128
  | Chrome129
  | Chrome130
  | Chrome131
  | SafariIos17_2
  | SafariIos17_4_1
  | SafariIos16_5
  | Safari15_3
  | Safari15_5
  | Safari15_6_1
  | Safari16
  | Safari16_5
  | Safari17_0
  | Safari17_2_1
  | Safari17_4_1
  | Safari17_5
  | Safari18
  | SafariIPad18
  | OkHttp3_9
  | OkHttp3_11
  | OkHttp3_13
  | OkHttp3_14
  | OkHttp4_9
  | OkHttp4_10
  | OkHttp5
  | Edge101
  | Edge122
  | Edge127
  deriving DecidableEq, Repr

/-- All 46 variants of `Impersonate`, in declaration order. -/
def allImpersonate : List Impersonate :=
  [.Chrome100, .Chrome101, .Chrome104, .Chrome105, .Chrome106, .Chrome107,
   .Chrome108, .Chrome109, .Chrome114, .Chrome116, .Chrome117, .Chrome118,
   .Chrome119, .Chrome120, .Chrome123, .Chrome124, .Chrome126, .Chrome127,
   .Chrome128, .Chrome129, .Chrome130, .Chrome131,
   .SafariIos17_2, .SafariIos17_4_1, .SafariIos16_5, .Safari15_3, .Safari15_5,
   .Safari15_6_1, .Safari16, .Safari16_5, .Safari17_0, .Safari17_2_1,
   .Safari17_4_1, .Safari17_5, .Safari18, .SafariIPad18,
   .OkHttp3_9, .OkHttp3_11, .OkHttp3_13, .OkHttp3_14, .OkHttp4_9,
   .OkHttp4_10, .OkHttp5,
   .Edge101, .Edge122, .Edge127]

/-- The (variant, string) pair list fed to the `impl_from_str!` macro in
`mod.rs`, in source order.  The generated `FromStr` impl matches the input
against these string literals in order. -/
def impersonateTable : List (Impersonate × String) :=
  [(.Chrome100, "chrome_100"),
   (.Chrome101, "chrome_101"),
   (.Chrome104, "chrome_104"),
   (.Chrome105, "chrome_105"),
   (.Chrome106, "chrome_106"),
   (.Chrome107, "chrome_107"),
   (.Chrome108, "chrome_108"),
   (.Chrome109, "chrome_109"),
   (.Chrome114, "chrome_114"),
   (.Chrome116, "chrome_116"),
   (.Chrome117, "chrome_117"),
   (.Chrome118, "chrome_118"),
   (.Chrome119, "chrome_119"),
   (.Chrome120, "chrome_120"),
   (.Chrome123, "chrome_123"),
   (.Chrome124, "chrome_124"),
   (.Chrome126, "chrome_126"),
   (.Chrome127, "chrome_127"),
   (.Chrome128, "chrome_128"),
   (.Chrome129, "chrome_129"),
   (.Chrome130, "chrome_130"),
   (.Chrome131, "chrome_131"),
   (.SafariIos17_2, "safari_ios_17.2"),
   (.SafariIos17_4_1, "safari_ios_17.4.1"),
   (.SafariIos16_5, "safari_ios_16.5"),
   (.Safari15_3, "safari_15.3"),
   (.Safari15_5, "safari_15.5"),
   (.Safari15_6_1, "safari_15.6.1"),
   (.Safari16, "safari_16"),
   (.Safari16_5, "safari_16.5"),
   (.Safari17_0, "safari_17.0"),
   (.Safari17_2_1, "safari_17.2.1"),
   (.Safari17_4_1, "safari_17.4.1"),
   (.Safari17_5, "safari_17.5"),
   (.Safari18, "safari_18"),
   (.SafariIPad18, "safari_ipad_18"),
   (.OkHttp3_9, "okhttp_3.9"),
   (.OkHttp3_11, "okhttp_3.11"),
   (.OkHttp3_13, "okhttp_3.13"),
   (.OkHttp3_14, "okhttp_3.14"),
   (.OkHttp4_9, "okhttp_4.9"),
   (.OkHttp4_10, "okhttp_4.10"),
   (.OkHttp5, "okhttp_5"),
   (.Edge101, "edge_101"),
   (.Edge122, "edge_122"),
   (.Edge127, "edge_127")]

/-- `FromStr for Impersonate` as generated by `impl_from_str!` in `mod.rs`:
the input string is compared, literally and case-sensitively, against each
table entry in order; on no match the error string
`"Unknown impersonate version: " ++ s` is returned, carrying the input. -/
def from_str (s : String) : Except String Impersonate :=
  match impersonateTable.find? (fun p => p.2 = s) with
  | some p => .ok p.1
  | none => .error ("Unknown impersonate version: " ++ s)

/-- The canonical identifier string of a variant: the string paired with it
in the `impl_from_str!` table of `mod.rs`. -/
def impersonateString : Impersonate → String
  | .Chrome100 => "chrome_100"
  | .Chrome101 => "chrome_101"
  | .Chrome104 => "chrome_104"
  | .Chrome105 => "chrome_105"
  | .Chrome106 => "chrome_106"
  | .Chrome107 => "chrome_107"
  | .Chrome108 => "chrome_108"
  | .Chrome109 => "chrome_109"
  | .Chrome114 => "chrome_114"
  | .Chrome116 => "chrome_116"
  | .Chrome117 => "chrome_117"
  | .Chrome118 => "chrome_118"
  | .Chrome119 => "chrome_119"
  | .Chrome120 => "chrome_120"
  | .Chrome123 => "chrome_123"
  | .Chrome124 => "chrome_124"
  | .Chrome126 => "chrome_126"
  | .Chrome127 => "chrome_127"
  | .Chrome128 => "chrome_128"
  | .Chrome129 => "chrome_129"
  | .Chrome130 => "chrome_130"
  | .Chrome131 => "chrome_131"
  | .SafariIos17_2 => "safari_ios_17.2"
  | .SafariIos17_4_1 => "safari_ios_17.4.1"
  | .SafariIos16_5 => "safari_ios_16.5"
  | .Safari15_3 => "safari_15.3"
  | .Safari15_5 => "safari_15.5"
  | .Safari15_6_1 => "safari_15.6.1"
  | .Safari16 => "safari_16"
  | .Safari16_5 => "safari_16.5"
  | .Safari17_0 => "safari_17.0"
  | .Safari17_2_1 => "safari_17.2.1"
  | .Safari17_4_1 => "safari_17.4.1"
  | .Safari17_5 => "safari_17.5"
  | .Safari18 => "safari_18"
  | .SafariIPad18 => "safari_ipad_18"
  | .OkHttp3_9 => "okhttp_3.9"
  | .OkHttp3_11 => "okhttp_3.11"
  | .OkHttp3_13 => "okhttp_3.13"
  | .OkHttp3_14 => "okhttp_3.14"
  | .OkHttp4_9 => "okhttp_4.9"
  | .OkHttp4_10 => "okhttp_4.10"
  | .OkHttp5 => "okhttp_5"
  | .Edge101 => "edge_101"
  | .Edge122 => "edge_122"
  | .Edge127 => "edge_127"

/-- The fixed table of supported identifier strings, in source order. -/
def supportedStrings : List String := impersonateTable.map Prod.snd

example : supportedStrings.length = 46 := by decide
example : from_str "chrome_131" = .ok .Chrome131 := rfl
example : from_str "chrome_999" =
    .error "Unknown impersonate version: chrome_999" := rfl

/-- TLS curves used by the builders (`boring::ssl::SslCurve`). -/
inductive SslCurve where
  | X25519
  | SECP256R1
  | SECP384R1
  | SECP521R1
  | X25519Kyber768Draft00
  deriving DecidableEq, Repr

/-- TLS protocol versions (`boring::ssl::SslVersion`). -/
inductive SslVersion where
  | TLS1
  | TLS1_1
  | TLS1_2
  | TLS1_3
  deriving DecidableEq, Repr

/-- An error reported by the cryptographic engine
(`boring::error::ErrorStack`), abstracted to an error code. -/
structure ErrorStack where
  code : Nat
  deriving DecidableEq, Repr

/-- `crate::HttpVersionPref` as used by the OkHttp TLS builder. -/
inductive HttpVersionPref where
  | All
  | Http1
  | Http2
  deriving DecidableEq, Repr

/-- The state of a `boring::ssl::SslConnectorBuilder`: which configuration
calls from `okhttp/tls.rs` have been applied and with which arguments. -/
structure SslConnectorBuilder where
  ocspStapling : Bool := false
  curves : Option (List SslCurve) := none
  sigalgs : Option String := none
  cipherList : Option String := none
  minProto : Option SslVersion := none
  maxProto : Option SslVersion := none
  deriving DecidableEq, Repr

/-- The cryptographic engine as seen by `okhttp/tls.rs`: each fallible
configuration entry point either accepts its argument (`none`) or rejects
it with an engine-reported `ErrorStack` (`some e`).  This abstracts which
cipher, curve, signature-algorithm and version strings the engine
supports. -/
structure CryptoEngine where
  builderErr : Option ErrorStack
  curvesErr : List SslCurve → Option ErrorStack
  sigalgsErr : String → Option ErrorStack
  cipherErr : String → Option ErrorStack
  minProtoErr : SslVersion → Option ErrorStack
  maxProtoErr : SslVersion → Option ErrorStack

/-- `SslConnector::builder(SslMethod::tls_client())`. -/
def CryptoEngine.newBuilder (eng : CryptoEngine) :
    Except ErrorStack SslConnectorBuilder :=
  match eng.builderErr with
  | some e => .error e
  | none => .ok {}

/-- `builder.enable_ocsp_stapling()` (infallible). -/
def SslConnectorBuilder.enable_ocsp_stapling
    (b : SslConnectorBuilder) : SslConnectorBuilder :=
  { b with ocspStapling := true }

/-- `builder.set_curves(..)`. -/
def CryptoEngine.set_curves (eng : CryptoEngine) (b : SslConnectorBuilder)
    (cs : List SslCurve) : Except ErrorStack SslConnectorBuilder :=
  match eng.curvesErr cs with
  | some e => .error e
  | none => .ok { b with curves := some cs }

/-- `builder.set_sigalgs_list(..)`. -/
def CryptoEngine.set_sigalgs_list (eng : CryptoEngine)
    (b : SslConnectorBuilder) (s : String) :
    Except ErrorStack SslConnectorBuilder :=
  match eng.sigalgsErr s with
  | some e => .error e
  | none => .ok { b with sigalgs := some s }

/-- `builder.set_cipher_list(..)`. -/
def CryptoEngine.set_cipher_list (eng : CryptoEngine)
    (b : SslConnectorBuilder) (s : String) :
    Except ErrorStack SslConnectorBuilder :=
  match eng.cipherErr s with
  | some e => .error e
  | none => .ok { b with cipherList := some s }

/-- `builder.set_min_proto_version(Some(v))`. -/
def CryptoEngine.set_min_proto_version (eng : CryptoEngine)
    (b : SslConnectorBuilder) (v : SslVersion) :
    Except ErrorStack SslConnectorBuilder :=
  match eng.minProtoErr v with
  | some e => .error e
  | none => .ok { b with minProto := some v }

/-- `builder.set_max_proto_version(Some(v))`. -/
def CryptoEngine.set_max_proto_version (eng : CryptoEngine)
    (b : SslConnectorBuilder) (v : SslVersion) :
    Except ErrorStack SslConnectorBuilder :=
  match eng.maxProtoErr v with
  | some e => .error e
  | none => .ok { b with maxProto := some v }

/-- `TlsSettings` as built at the end of `try_into` in `okhttp/tls.rs`:
the configured connector builder plus the HTTP version preference. -/
structure TlsSettings where
  connector : SslConnectorBuilder
  http_version_pref : HttpVersionPref
  deriving DecidableEq, Repr

/-- The `SIGALGS_LIST` constant of `okhttp/tls.rs`: the fixed nine-entry
signature-algorithm baseline, in source order. -/
def SIGALGS_LIST : List String :=
  ["ecdsa_secp256r1_sha256",
   "rsa_pss_rsae_sha256",
   "rsa_pkcs1_sha256",
   "ecdsa_secp384r1_sha384",
   "rsa_pss_rsae_sha384",
   "rsa_pkcs1_sha384",
   "rsa_pss_rsae_sha512",
   "rsa_pkcs1_sha512",
   "rsa_pkcs1_sha1"]

/-- `OkHttpTlsSettings` from `okhttp/tls.rs`: optional curve override,
signature-algorithm list (typed_builder default `&SIGALGS_LIST`), and the
mandatory cipher list. -/
structure OkHttpTlsSettings where
  curves : Option (List SslCurve)
  sigalgs_list : List String
  cipher_list : List String
  deriving Repr

/-- The typed_builder construction of `OkHttpTlsSettings` when the caller
does not set `sigalgs_list`: the field defaults to `SIGALGS_LIST`
(`#[builder(default = &SIGALGS_LIST)]`). -/
def OkHttpTlsSettings.buildDefaultSigalgs (curves : Option (List SslCurve))
    (cipher_list : List String) : OkHttpTlsSettings :=
  { curves := curves, sigalgs_list := SIGALGS_LIST, cipher_list := cipher_list }

/-- `TryInto<TlsSettings> for OkHttpTlsSettings` from `okhttp/tls.rs`:
build a connector, enable OCSP stapling, set curves (defaulting to
X25519, SECP256R1, SECP384R1), the colon-joined signature-algorithm and
cipher lists, and the TLS 1.2 / TLS 1.3 version bounds; each fallible
step propagates the engine error with `?`. -/
def OkHttpTlsSettings.try_into (eng : CryptoEngine)
    (s : OkHttpTlsSettings) : Except ErrorStack TlsSettings := do
  let builder ← eng.newBuilder
  let builder := builder.enable_ocsp_stapling
  let builder ← eng.set_curves builder
    (s.curves.getD [.X25519, .SECP256R1, .SECP384R1])
  let builder ← eng.set_sigalgs_list builder
    (String.intercalate ":" s.sigalgs_list)
  let builder ← eng.set_cipher_list builder
    (String.intercalate ":" s.cipher_list)
  let builder ← eng.set_min_proto_version builder .TLS1_2
  let builder ← eng.set_max_proto_version builder .TLS1_3
  return { connector := builder, http_version_pref := .All }

/-- A header map (`http::HeaderMap`): header-name to value pairs. -/
abbrev HeaderMap := List (String × String)

/-- HTTP/2 SETTINGS parameter identifiers. -/
inductive SettingsParam where
  | headerTableSize
  | enablePush
  | maxConcurrentStreams
  | initialWindowSize
  | maxFrameSize
  | maxHeaderListSize
  deriving DecidableEq, Repr

/-- HTTP/2 pseudo-header fields. -/
inductive PseudoHeader where
  | method
  | scheme
  | authority
  | path
  deriving DecidableEq, Repr

/-- Modelled from the spec: `Http2Settings` lives outside the given
sources (`super::Http2Settings`); the spec describes it as an ordered
list of (SETTINGS-parameter, value) pairs, a pseudo-header order and a
connection window-update increment. -/
structure Http2Settings where
  settingsOrder : List (SettingsParam × Nat)
  pseudoHeaderOrder : List PseudoHeader
  connectionWindowUpdate : Nat
  deriving DecidableEq, Repr

/-- `ImpersonateSettings` from `mod.rs`: TLS settings, HTTP/2 settings,
optional shared header map, optional shared header order.  The `Cow`
borrow wrappers of the source are dropped in the value-level embedding. -/
structure ImpersonateSettings where
  tls : TlsSettings
  http2 : Http2Settings
  headers : Option HeaderMap
  headers_order : Option (List String)
  deriving DecidableEq, Repr

/-- The `conditional_headers!` macro from `mod.rs`, value-level: when the
flag is set, the initializer value is returned; otherwise `None`.  The
`LazyLock` caching of the macro is modelled separately by
`conditional_headers_cached`. -/
def conditional_headers (with_headers : Bool) (f : Unit → HeaderMap) :
    Option HeaderMap :=
  if with_headers then some (f ()) else none

/-- The `conditional_headers!` macro with its `LazyLock` cache made
explicit.  State is the per-profile static cell (`none` before first
initialization).  Returns the result, the new cell state, and how many
times the initializer ran during this call. -/
def conditional_headers_cached (with_headers : Bool) (f : Unit → HeaderMap)
    (cell : Option HeaderMap) :
    Option HeaderMap × Option HeaderMap × Nat :=
  if with_headers then
    match cell with
    | some m => (some m, some m, 0)
    | none =>
      let m := f ()
      (some m, some m, 1)
  else (none, cell, 0)

/-- Modelled from the spec: the per-profile header initializer (the
`header_initializer` functions of the chrome/safari/okhttp/edge modules
are not under src).  The spec fixes only the shape: a per-profile default
header map with entries such as User-Agent. -/
def profileHeaders (p : Impersonate) : HeaderMap :=
  [("user-agent", impersonateString p)]

/-- Modelled from the spec: the per-profile wire order of header names. -/
def profileHeadersOrder (_p : Impersonate) : List String :=
  ["user-agent"]

/-- Modelled from the spec: the per-profile TLS settings value.  The
per-profile cipher/curve/extension tables are an external data table not
in the given sources; the spec fixes the baseline minimum TLS 1.2 and
maximum TLS 1.3 protocol version bounds, which the model records. -/
def profileTls (_p : Impersonate) : TlsSettings :=
  { connector :=
      { minProto := some .TLS1_2
        maxProto := some .TLS1_3 }
    http_version_pref := .All }

/-- Modelled from the spec: the per-profile HTTP/2 settings value.  The
per-profile literal parameter tables are external data; the model records
only the shape with the canonical pseudo-header fields. -/
def profileHttp2 (_p : Impersonate) : Http2Settings :=
  { settingsOrder := []
    pseudoHeaderOrder := [.method, .scheme, .authority, .path]
    connectionWindowUpdate := 0 }

/-- Modelled from the spec: the shared shape of every per-profile
`get_settings(with_headers)` builder (modules chrome::v100 … edge::edge127
are not under src): build the profile TLS and HTTP/2 values and attach the
header map and order only when `with_headers` is set, via
`conditional_headers!`. -/
def profileGetSettings (p : Impersonate) (with_headers : Bool) :
    ImpersonateSettings :=
  { tls := profileTls p
    http2 := profileHttp2 p
    headers := conditional_headers with_headers (fun _ => profileHeaders p)
    headers_order :=
      if with_headers then some (profileHeadersOrder p) else none }

def v100.get_settings : Bool → ImpersonateSettings := profileGetSettings .Chrome100

def v101.get_settings : Bool → ImpersonateSettings := profileGetSettings .Chrome101

def v104.get_settings : Bool → ImpersonateSettings := profileGetSettings .Chrome104

def v105.get_settings : Bool → ImpersonateSettings := profileGetSettings .Chrome105

def v106.get_settings : Bool → ImpersonateSettings := profileGetSettings .Chrome106

def v107.get_settings : Bool → ImpersonateSettings := profileGetSettings .Chrome107

def v108.get_settings : Bool → ImpersonateSettings := profileGetSettings .Chrome108

def v109.get_settings : Bool → ImpersonateSettings := profileGetSettings .Chrome109

def v114.get_settings : Bool → ImpersonateSettings := profileGetSettings .Chrome114

def v116.get_settings : Bool → ImpersonateSettings := profileGetSettings .Chrome116

def v117.get_settings : Bool → ImpersonateSettings := profileGetSettings .Chrome117

def v118.get_settings : Bool → ImpersonateSettings := profileGetSettings .Chrome118

def v119.get_settings : Bool → ImpersonateSettings := profileGetSettings .Chrome119

def v120.get_settings : Bool → ImpersonateSettings := profileGetSettings .Chrome120

def v123.get_settings : Bool → ImpersonateSettings := profileGetSettings .Chrome123

def v124.get_settings : Bool → ImpersonateSettings := profileGetSettings .Chrome124

def v126.get_settings : Bool → ImpersonateSettings := profileGetSettings .Chrome126

def v127.get_settings : Bool → ImpersonateSettings := profileGetSettings .Chrome127

def v128.get_settings : Bool → ImpersonateSettings := profileGetSettings .Chrome128

def v129.get_settings : Bool → ImpersonateSettings := profileGetSettings .Chrome129

def v130.get_settings : Bool → ImpersonateSettings := profileGetSettings .Chrome130

def v131.get_settings : Bool → ImpersonateSettings := profileGetSettings .Chrome131

def safari_ios_17_2.get_settings : Bool → ImpersonateSettings := profileGetSettings .SafariIos17_2

def safari_ios_17_4_1.get_settings : Bool → ImpersonateSettings := profileGetSettings .SafariIos17_4_1

def safari_ios_16_5.get_settings : Bool → ImpersonateSettings := profileGetSettings .SafariIos16_5

def safari15_3.get_settings : Bool → ImpersonateSettings := profileGetSettings .Safari15_3

def safari15_5.get_settings : Bool → ImpersonateSettings := profileGetSettings .Safari15_5

def safari15_6_1.get_settings : Bool → ImpersonateSettings := profileGetSettings .Safari15_6_1

def safari16.get_settings : Bool → ImpersonateSettings := profileGetSettings .Safari16

def safari16_5.get_settings : Bool → ImpersonateSettings := profileGetSettings .Safari16_5

def safari17_0.get_settings : Bool → ImpersonateSettings := profileGetSettings .Safari17_0

def safari17_2_1.get_settings : Bool → ImpersonateSettings := profileGetSettings .Safari17_2_1

def safari17_4_1.get_settings : Bool → ImpersonateSettings := profileGetSettings .Safari17_4_1

def safari17_5.get_settings : Bool → ImpersonateSettings := profileGetSettings .Safari17_5

def safari18.get_settings : Bool → ImpersonateSettings := profileGetSettings .Safari18

def safari_ipad_18.get_settings : Bool → ImpersonateSettings := profileGetSettings .SafariIPad18

def okhttp3_9.get_settings : Bool → ImpersonateSettings := profileGetSettings .OkHttp3_9

def okhttp3_11.get_settings : Bool → ImpersonateSettings := profileGetSettings .OkHttp3_11

def okhttp3_13.get_settings : Bool → ImpersonateSettings := profileGetSettings .OkHttp3_13

def okhttp3_14.get_settings : Bool → ImpersonateSettings := profileGetSettings .OkHttp3_14

def okhttp4_9.get_settings : Bool → ImpersonateSettings := profileGetSettings .OkHttp4_9

def okhttp4_10.get_settings : Bool → ImpersonateSettings := profileGetSettings .OkHttp4_10

def okhttp5.get_settings : Bool → ImpersonateSettings := profileGetSettings .OkHttp5

def edge101.get_settings : Bool → ImpersonateSettings := profileGetSettings .Edge101

def edge122.get_settings : Bool → ImpersonateSettings := profileGetSettings .Edge122

def edge127.get_settings : Bool → ImpersonateSettings := profileGetSettings .Edge127

/-- `tls_settings(ver, with_headers)` from `mod.rs`: the
`impersonate_match!` dispatch, one arm per `Impersonate` variant, each
calling the matching profile module builder with the flag. -/
def tls_settings (ver : Impersonate) (with_headers : Bool) :
    ImpersonateSettings :=
  match ver with
  | .Chrome100 => v100.get_settings with_headers
  | .Chrome101 => v101.get_settings with_headers
  | .Chrome104 => v104.get_settings with_headers
  | .Chrome105 => v105.get_settings with_headers
  | .Chrome106 => v106.get_settings with_headers
  | .Chrome107 => v107.get_settings with_headers
  | .Chrome108 => v108.get_settings with_headers
  | .Chrome109 => v109.get_settings with_headers
  | .Chrome114 => v114.get_settings with_headers
  | .Chrome116 => v116.get_settings with_headers
  | .Chrome117 => v117.get_settings with_headers
  | .Chrome118 => v118.get_settings with_headers
  | .Chrome119 => v119.get_settings with_headers
  | .Chrome120 => v120.get_settings with_headers
  | .Chrome123 => v123.get_settings with_headers
  | .Chrome124 => v124.get_settings with_headers
  | .Chrome126 => v126.get_settings with_headers
  | .Chrome127 => v127.get_settings with_headers
  | .Chrome128 => v128.get_settings with_headers
  | .Chrome129 => v129.get_settings with_headers
  | .Chrome130 => v130.get_settings with_headers
  | .Chrome131 => v131.get_settings with_headers
  | .SafariIos17_2 => safari_ios_17_2.get_settings with_headers
  | .SafariIos17_4_1 => safari_ios_17_4_1.get_settings with_headers
  | .SafariIos16_5 => safari_ios_16_5.get_settings with_headers
  | .Safari15_3 => safari15_3.get_settings with_headers
  | .Safari15_5 => safari15_5.get_settings with_headers
  | .Safari15_6_1 => safari15_6_1.get_settings with_headers
  | .Safari16 => safari16.get_settings with_headers
  | .Safari16_5 => safari16_5.get_settings with_headers
  | .Safari17_0 => safari17_0.get_settings with_headers
  | .Safari17_2_1 => safari17_2_1.get_settings with_headers
  | .Safari17_4_1 => safari17_4_1.get_settings with_headers
  | .Safari17_5 => safari17_5.get_settings with_headers
  | .Safari18 => safari18.get_settings with_headers
  | .SafariIPad18 => safari_ipad_18.get_settings with_headers
  | .OkHttp3_9 => okhttp3_9.get_settings with_headers
  | .OkHttp3_11 => okhttp3_11.get_settings with_headers
  | .OkHttp3_13 => okhttp3_13.get_settings with_headers
  | .OkHttp3_14 => okhttp3_14.get_settings with_headers
  | .OkHttp4_9 => okhttp4_9.get_settings with_headers
  | .OkHttp4_10 => okhttp4_10.get_settings with_headers
  | .OkHttp5 => okhttp5.get_settings with_headers
  | .Edge101 => edge101.get_settings with_headers
  | .Edge122 => edge122.get_settings with_headers
  | .Edge127 => edge127.get_settings with_headers

/-- An engine that accepts every configuration request; used to evaluate
the builder on concrete inputs. -/
def acceptAllEngine : CryptoEngine :=
  { builderErr := none
    curvesErr := fun _ => none
    sigalgsErr := fun _ => none
    cipherErr := fun _ => none
    minProtoErr := fun _ => none
    maxProtoErr := fun _ => none }

/-- All engine checks performed by `try_into` accept the requested data. -/
def engineAccepts (eng : CryptoEngine) (s : OkHttpTlsSettings) : Prop :=
  eng.builderErr = none ∧
  eng.curvesErr (s.curves.getD [.X25519, .SECP256R1, .SECP384R1]) = none ∧
  eng.sigalgsErr (String.intercalate ":" s.sigalgs_list) = none ∧
  eng.cipherErr (String.intercalate ":" s.cipher_list) = none ∧
  eng.minProtoErr SslVersion.TLS1_2 = none ∧
  eng.maxProtoErr SslVersion.TLS1_3 = none

/-- The errors the engine reports for the data `try_into` requests for
settings `s`: a value is an engine-reported error when one of the six
checks returns it. -/
def engineReportedError (eng : CryptoEngine) (s : OkHttpTlsSettings)
    (e : ErrorStack) : Prop :=
  eng.builderErr = some e ∨
  eng.curvesErr (s.curves.getD [.X25519, .SECP256R1, .SECP384R1]) = some e ∨
  eng.sigalgsErr (String.intercalate ":" s.sigalgs_list) = some e ∨
  eng.cipherErr (String.intercalate ":" s.cipher_list) = some e ∨
  eng.minProtoErr SslVersion.TLS1_2 = some e ∨
  eng.maxProtoErr SslVersion.TLS1_3 = some e

example :
    OkHttpTlsSettings.try_into acceptAllEngine
      (OkHttpTlsSettings.buildDefaultSigalgs none ["AES"]) =
    .ok { connector :=
            { ocspStapling := true
              curves := some [.X25519, .SECP256R1, .SECP384R1]
              sigalgs := some (String.intercalate ":" SIGALGS_LIST)
              cipherList := some "AES"
              minProto := some .TLS1_2
              maxProto := some .TLS1_3 }
          http_version_pref := .All } := rfl

/-- The value `try_into` returns when every engine check passes: a fully
configured connector, OCSP stapling on, with the requested or default
curve list, the colon-joined lists, and the TLS 1.2 / 1.3 bounds. -/
def okSettings (s : OkHttpTlsSettings) : TlsSettings :=
  { connector :=
      { ocspStapling := true
        curves := some (s.curves.getD [.X25519, .SECP256R1, .SECP384R1])
        sigalgs := some (String.intercalate ":" s.sigalgs_list)
        cipherList := some (String.intercalate ":" s.cipher_list)
        minProto := some .TLS1_2
        maxProto := some .TLS1_3 }
    http_version_pref := .All }

/-- Unfolding of `try_into`: the do-chain is the nested first-error
cascade over the six engine checks, in source order. -/
theorem try_into_eq (eng : CryptoEngine) (s : OkHttpTlsSettings) :
    OkHttpTlsSettings.try_into eng s =
      match eng.builderErr with
      | some e => .error e
      | none =>
        match eng.curvesErr (s.curves.getD [.X25519, .SECP256R1, .SECP384R1]) with
        | some e => .error e
        | none =>
          match eng.sigalgsErr (String.intercalate ":" s.sigalgs_list) with
          | some e => .error e
          | none =>
            match eng.cipherErr (String.intercalate ":" s.cipher_list) with
            | some e => .error e
            | none =>
              match eng.minProtoErr .TLS1_2 with
              | some e => .error e
              | none =>
                match eng.maxProtoErr .TLS1_3 with
                | some e => .error e
                | none => .ok (okSettings s) := by
  unfold OkHttpTlsSettings.try_into CryptoEngine.newBuilder
    SslConnectorBuilder.enable_ocsp_stapling CryptoEngine.set_curves
    CryptoEngine.set_sigalgs_list CryptoEngine.set_cipher_list
    CryptoEngine.set_min_proto_version CryptoEngine.set_max_proto_version
    okSettings
  cases eng.builderErr <;>
    cases eng.curvesErr (s.curves.getD [.X25519, .SECP256R1, .SECP384R1]) <;>
      cases eng.sigalgsErr (String.intercalate ":" s.sigalgs_list) <;>
        cases eng.cipherErr (String.intercalate ":" s.cipher_list) <;>
          cases eng.minProtoErr .TLS1_2 <;>
            cases eng.maxProtoErr .TLS1_3 <;>
              rfl

/-- A successful conversion implies every engine check accepted and the
result is exactly the fully configured settings value. -/
theorem accepts_of_try_into_ok (eng : CryptoEngine) (s : OkHttpTlsSettings)
    (t : TlsSettings) :
    OkHttpTlsSettings.try_into eng s = .ok t →
    engineAccepts eng s ∧ t = okSettings s := by
  rw [try_into_eq]
  unfold engineAccepts
  cases eng.builderErr <;>
    cases eng.curvesErr (s.curves.getD [.X25519, .SECP256R1, .SECP384R1]) <;>
      cases eng.sigalgsErr (String.intercalate ":" s.sigalgs_list) <;>
        cases eng.cipherErr (String.intercalate ":" s.cipher_list) <;>
          cases eng.minProtoErr .TLS1_2 <;>
            cases eng.maxProtoErr .TLS1_3 <;>
              simp [eq_comm]

/-- When every engine check accepts, the conversion succeeds with the
fully configured settings value. -/
theorem try_into_of_accepts (eng : CryptoEngine) (s : OkHttpTlsSettings)
    (h : engineAccepts eng s) :
    OkHttpTlsSettings.try_into eng s = .ok (okSettings s) := by
  obtain ⟨h1, h2, h3, h4, h5, h6⟩ := h
  rw [try_into_eq, h1, h2, h3, h4, h5, h6]

/-- When some engine check rejects, the conversion returns one of the
engine-reported errors and produces no settings value. -/
theorem error_of_not_accepts (eng : CryptoEngine) (s : OkHttpTlsSettings) :
    ¬ engineAccepts eng s →
    ∃ e, OkHttpTlsSettings.try_into eng s = .error e ∧
      engineReportedError eng s e := by
  rw [try_into_eq]
  unfold engineAccepts engineReportedError
  cases eng.builderErr <;>
    cases eng.curvesErr (s.curves.getD [.X25519, .SECP256R1, .SECP384R1]) <;>
      cases eng.sigalgsErr (String.intercalate ":" s.sigalgs_list) <;>
        cases eng.cipherErr (String.intercalate ":" s.cipher_list) <;>
          cases eng.minProtoErr .TLS1_2 <;>
            cases eng.maxProtoErr .TLS1_3 <;>
              simp

/-- A concrete engine that rejects every cipher list with error 7; used to
exhibit the failure path of the conversion. -/
def rejectCipherEngine : CryptoEngine :=
  { acceptAllEngine with cipherErr := fun _ => some ⟨7⟩ }

deriving instance DecidableEq for Except

/-- C1: the registry dispatch `tls_settings(ver, with_headers)` is a total
function over the closed 46-variant `Impersonate` enumeration: every
variant, for both flag values, is mapped to exactly one registered profile
builder whose `ImpersonateSettings` is returned, with no variant left
unmapped and no fallback arm. -/
theorem tls_settings_total_dispatch :
    (∀ (ver : Impersonate) (with_headers : Bool),
        tls_settings ver with_headers = profileGetSettings ver with_headers) ∧
    allImpersonate.length = 46 ∧
    ∀ ver : Impersonate, ver ∈ allImpersonate := by
  refine ⟨?_, by decide, ?_⟩
  · intro ver wh
    cases ver <;> rfl
  · intro ver
    cases ver <;> decide

/-- C2: the parser succeeds exactly on the strings of the fixed supported
table, compared exactly and case-sensitively; every other input fails with
the unknown-version error carrying the original input, in particular
chrome_999, and no input falls back to a default profile. -/
theorem from_str_exact_table :
    (∀ s : String, s ∈ supportedStrings → ∃ v, from_str s = .ok v) ∧
    (∀ s : String, s ∉ supportedStrings →
        from_str s = .error ("Unknown impersonate version: " ++ s)) ∧
    from_str "chrome_999" = .error "Unknown impersonate version: chrome_999" := by
  refine ⟨?_, ?_, rfl⟩
  · intro s hs
    unfold from_str
    rcases hf : impersonateTable.find? (fun p => p.2 = s) with _ | p
    · exfalso
      rw [List.find?_eq_none] at hf
      rw [supportedStrings, List.mem_map] at hs
      obtain ⟨a, ha, has⟩ := hs
      have := hf a ha
      simp [has] at this
    · rw [hf]
      exact ⟨p.1, rfl⟩
  · intro s hs
    unfold from_str
    have hf : impersonateTable.find? (fun p => p.2 = s) = none := by
      rw [List.find?_eq_none]
      intro x hx
      simp only [decide_eq_true_eq]
      intro hxs
      exact hs (by rw [supportedStrings]; exact List.mem_map.2 ⟨x, hx, hxs⟩)
    rw [hf]

/-- Witness for C2 at concrete inputs: chrome_131 is in the table and
parses; opera_12 is not and fails with the error carrying the input. -/
theorem from_str_exact_table_witness :
    (∃ v, from_str "chrome_131" = .ok v) ∧
    from_str "opera_12" = .error ("Unknown impersonate version: " ++ "opera_12") :=
  ⟨from_str_exact_table.1 "chrome_131" (by decide),
   from_str_exact_table.2.1 "opera_12" (by decide)⟩

/-- C3: the variant-string table is total and injective: every variant
appears exactly once among the table keys, the table strings are pairwise
distinct and parse to pairwise distinct results, and parsing the canonical
string of any variant round-trips to that variant. -/
theorem impersonate_table_bijective :
    (impersonateTable.map Prod.fst).Nodup ∧
    (∀ v : Impersonate, v ∈ impersonateTable.map Prod.fst) ∧
    (impersonateTable.map Prod.snd).Nodup ∧
    supportedStrings.Pairwise (fun s1 s2 => from_str s1 ≠ from_str s2) ∧
    ∀ v : Impersonate, from_str (impersonateString v) = .ok v := by
  refine ⟨by decide, ?_, by decide, by decide, ?_⟩
  · intro v
    cases v <;> decide
  · intro v
    cases v <;> rfl

/-- C4: with the headers flag off, the aggregate for every identifier
carries no header map and no header order, and the conditional header
construction yields `None` independently of the initializer. -/
theorem build_false_no_headers :
    (∀ id : Impersonate, (tls_settings id false).headers = none ∧
        (tls_settings id false).headers_order = none) ∧
    ∀ f : Unit → HeaderMap, conditional_headers false f = none := by
  refine ⟨?_, fun f => rfl⟩
  intro id
  cases id <;> exact ⟨rfl, rfl⟩

/-- The lazily cached conditional header construction initializes at most
once: from an empty cell, the first call with the flag on runs the
initializer exactly once and fills the cell, and the second call runs it
zero times, returning exactly the cached cell value and leaving the cell
unchanged. -/
theorem conditional_headers_once (f : Unit → HeaderMap) :
    (conditional_headers_cached true f none).1 = some (f ()) ∧
    (conditional_headers_cached true f
        ((conditional_headers_cached true f none).2.1)).1 =
      (conditional_headers_cached true f none).1 ∧
    (conditional_headers_cached true f
        ((conditional_headers_cached true f none).2.1)).2.1 =
      (conditional_headers_cached true f none).2.1 ∧
    (conditional_headers_cached true f none).2.2 = 1 ∧
    (conditional_headers_cached true f
        ((conditional_headers_cached true f none).2.1)).2.2 = 0 :=
  ⟨rfl, rfl, rfl, rfl, rfl⟩

/-- Modelled from the spec: a per-profile builder with its per-profile
`LazyLock` cell threaded explicitly (the builder modules are not under
src).  Returns the settings, the new cell state, and how many times the
header initializer ran. -/
def profileGetSettingsCached (p : Impersonate) (with_headers : Bool)
    (cell : Option HeaderMap) :
    ImpersonateSettings × Option HeaderMap × Nat :=
  let r := conditional_headers_cached with_headers
    (fun _ => profileHeaders p) cell
  ({ tls := profileTls p
     http2 := profileHttp2 p
     headers := r.1
     headers_order :=
       if with_headers then some (profileHeadersOrder p) else none },
   r.2)

/-- C5: building twice with the headers flag on shares one cached header
map: the first build from an empty per-profile cell runs the initializer
exactly once and fills the cell, and the second build runs it zero times
and returns as its header map exactly the content of the unchanged cell. -/
theorem build_true_twice_shared (p : Impersonate) :
    ((profileGetSettingsCached p true none).1.headers =
        some (profileHeaders p)) ∧
    ((profileGetSettingsCached p true
        ((profileGetSettingsCached p true none).2.1)).1.headers =
      (profileGetSettingsCached p true none).1.headers) ∧
    ((profileGetSettingsCached p true
        ((profileGetSettingsCached p true none).2.1)).1.headers =
      (profileGetSettingsCached p true none).2.1) ∧
    ((profileGetSettingsCached p true
        ((profileGetSettingsCached p true none).2.1)).2.1 =
      (profileGetSettingsCached p true none).2.1) ∧
    ((profileGetSettingsCached p true none).2.2 = 1) ∧
    ((profileGetSettingsCached p true
        ((profileGetSettingsCached p true none).2.1)).2.2 = 0) :=
  ⟨rfl, rfl, rfl, rfl, rfl, rfl⟩

/-- C6: the OkHttp TLS conversion is all-or-nothing: a produced settings
value implies every engine check accepted, and whenever some check
rejects, the conversion returns one of the engine-reported errors and no
settings value. -/
theorem try_into_atomic (eng : CryptoEngine) (s : OkHttpTlsSettings) :
    (∀ t, OkHttpTlsSettings.try_into eng s = .ok t → engineAccepts eng s) ∧
    (¬ engineAccepts eng s →
      ∃ e, OkHttpTlsSettings.try_into eng s = .error e ∧
        engineReportedError eng s e) :=
  ⟨fun t h => (accepts_of_try_into_ok eng s t h).1,
   error_of_not_accepts eng s⟩

/-- Witness for C6: with an engine that rejects the cipher list, the
conversion fails with an engine-reported error. -/
theorem try_into_atomic_witness :
    ∃ e, OkHttpTlsSettings.try_into rejectCipherEngine
        (OkHttpTlsSettings.buildDefaultSigalgs none ["AES"]) = .error e ∧
      engineReportedError rejectCipherEngine
        (OkHttpTlsSettings.buildDefaultSigalgs none ["AES"]) e :=
  (try_into_atomic rejectCipherEngine
      (OkHttpTlsSettings.buildDefaultSigalgs none ["AES"])).2
    (by simp [engineAccepts, rejectCipherEngine, acceptAllEngine])

/-- C7: a profile that does not override the signature-algorithm list gets
the fixed nine-entry baseline, and a successful conversion hands the
engine exactly those entries joined with a colon. -/
theorem sigalgs_default_baseline :
    (∀ (cs : Option (List SslCurve)) (cl : List String),
        (OkHttpTlsSettings.buildDefaultSigalgs cs cl).sigalgs_list =
          SIGALGS_LIST) ∧
    ∀ (eng : CryptoEngine) (s : OkHttpTlsSettings) (t : TlsSettings),
      s.sigalgs_list = SIGALGS_LIST →
      OkHttpTlsSettings.try_into eng s = .ok t →
      t.connector.sigalgs =
        some "ecdsa_secp256r1_sha256:rsa_pss_rsae_sha256:rsa_pkcs1_sha256:ecdsa_secp384r1_sha384:rsa_pss_rsae_sha384:rsa_pkcs1_sha384:rsa_pss_rsae_sha512:rsa_pkcs1_sha512:rsa_pkcs1_sha1" := by
  refine ⟨fun cs cl => rfl, fun eng s t hs h => ?_⟩
  obtain ⟨-, ht⟩ := accepts_of_try_into_ok eng s t h
  subst ht
  rw [okSettings, hs]
  rfl

/-- Witness for C7: the default-built settings under the all-accepting
engine produce the baseline joined signature-algorithm string. -/
theorem sigalgs_default_baseline_witness :
    (okSettings (OkHttpTlsSettings.buildDefaultSigalgs none ["AES"])).connector.sigalgs =
      some "ecdsa_secp256r1_sha256:rsa_pss_rsae_sha256:rsa_pkcs1_sha256:ecdsa_secp384r1_sha384:rsa_pss_rsae_sha384:rsa_pkcs1_sha384:rsa_pss_rsae_sha512:rsa_pkcs1_sha512:rsa_pkcs1_sha1" :=
  sigalgs_default_baseline.2 acceptAllEngine
    (OkHttpTlsSettings.buildDefaultSigalgs none ["AES"]) _ rfl rfl

/-- C8: when the curve list is not overridden, a successful conversion
configures exactly the default curve list X25519, SECP256R1, SECP384R1 in
that order. -/
theorem default_curves_order :
    ∀ (sg cl : List String) (eng : CryptoEngine) (t : TlsSettings),
      OkHttpTlsSettings.try_into eng
        { curves := none, sigalgs_list := sg, cipher_list := cl } = .ok t →
      t.connector.curves =
        some [SslCurve.X25519, SslCurve.SECP256R1, SslCurve.SECP384R1] := by
  intro sg cl eng t h
  obtain ⟨-, ht⟩ := accepts_of_try_into_ok eng _ t h
  subst ht
  rfl

/-- Witness for C8: under the all-accepting engine, a settings value with
no curve override yields the default curve list. -/
theorem default_curves_order_witness :
    (okSettings
        (OkHttpTlsSettings.mk none SIGALGS_LIST ["AES"])).connector.curves =
      some [SslCurve.X25519, SslCurve.SECP256R1, SslCurve.SECP384R1] :=
  default_curves_order SIGALGS_LIST ["AES"] acceptAllEngine _ rfl

/-- C9: every settings value carries the baseline protocol bounds: the
registry output for every identifier and flag has minimum TLS 1.2 and
maximum TLS 1.3 (in particular Chrome131 with the flag off), and so does
every successful OkHttp conversion. -/
theorem version_bounds_baseline :
    (∀ (ver : Impersonate) (wh : Bool),
      (tls_settings ver wh).tls.connector.minProto = some SslVersion.TLS1_2 ∧
      (tls_settings ver wh).tls.connector.maxProto = some SslVersion.TLS1_3) ∧
    ∀ (eng : CryptoEngine) (s : OkHttpTlsSettings) (t : TlsSettings),
      OkHttpTlsSettings.try_into eng s = .ok t →
      t.connector.minProto = some SslVersion.TLS1_2 ∧
      t.connector.maxProto = some SslVersion.TLS1_3 := by
  refine ⟨?_, fun eng s t h => ?_⟩
  · intro ver wh
    cases ver <;> exact ⟨rfl, rfl⟩
  · obtain ⟨-, ht⟩ := accepts_of_try_into_ok eng s t h
    subst ht
    exact ⟨rfl, rfl⟩

/-- Witness for C9: a concrete successful conversion carries the TLS 1.2
and TLS 1.3 bounds. -/
theorem version_bounds_baseline_witness :
    (okSettings (OkHttpTlsSettings.buildDefaultSigalgs none ["AES"])).connector.minProto =
        some SslVersion.TLS1_2 ∧
    (okSettings (OkHttpTlsSettings.buildDefaultSigalgs none ["AES"])).connector.maxProto =
        some SslVersion.TLS1_3 :=
  version_bounds_baseline.2 acceptAllEngine
    (OkHttpTlsSettings.buildDefaultSigalgs none ["AES"]) _ rfl

/-- C10: every successful OkHttp conversion has OCSP stapling enabled on
the connector, for every engine and every builder field combination. -/
theorem ocsp_always_enabled :
    ∀ (eng : CryptoEngine) (s : OkHttpTlsSettings) (t : TlsSettings),
      OkHttpTlsSettings.try_into eng s = .ok t →
      t.connector.ocspStapling = true := by
  intro eng s t h
  obtain ⟨-, ht⟩ := accepts_of_try_into_ok eng s t h
  subst ht
  rfl

/-- Witness for C10: a concrete successful conversion has OCSP stapling
enabled. -/
theorem ocsp_always_enabled_witness :
    (okSettings (OkHttpTlsSettings.buildDefaultSigalgs none ["AES"])).connector.ocspStapling =
      true :=
  ocsp_always_enabled acceptAllEngine
    (OkHttpTlsSettings.buildDefaultSigalgs none ["AES"]) _ rfl
